import Mathlib

/-!
Verification of the container-image → machine-snapshot build pipeline
(src/commands/build.mjs) and the companion run command (src/commands/run.mjs).

The JavaScript sources are shallowly embedded: pure command builders become
Lean functions; the validator becomes a function into Except; the stateful
orchestrator and the one-shot container adapter become functions from an
outcome oracle (which external step succeeds or fails, and with which exit
code) to a result together with the list of effects performed, mirroring the
source's await/throw/finally control flow.

JavaScript semantics that matter here and are embedded explicitly:
  * an array object is always truthy, so negating one yields false;
  * a string is truthy iff it is non-empty; undefined is falsy;
  * the sources are ES modules (strict mode) and build/run are invoked as
    plain functions (src/unnamed/part_000), so inside them the value of
    this is undefined and any this.warn / this.config access throws a
    TypeError, aborting the enclosing async function.
-/

/-- In JavaScript every array object is truthy, whatever its contents; the
guard at src/commands/build.mjs line 48 negates two values that are always
arrays after the defaulting with the nullish operator on lines 37 and 39. -/
def jsArrayTruthy (_xs : List String) : Bool := true

/-- A JavaScript string is truthy iff it is non-empty. -/
def jsStringTruthy (s : String) : Bool := !(s == "")

/-- Truthiness of a value that is either a string or undefined. -/
def jsOptStringTruthy : Option String → Bool
  | none => false
  | some s => jsStringTruthy s

/-! ## Version Comparator
Modelled from the spec (section 4.2): the semver dependency is an external
collaborator, not code under src/. A semantic version is
MAJOR.MINOR.PATCH with optional pre-release and build metadata; numeric
identifiers carry no leading zeros; precedence compares the three numbers,
then treats a pre-release as lower than the release, comparing pre-release
identifier lists pointwise (numeric identifiers numerically and below
alphanumeric ones, alphanumeric ones in lexicographic character order, a
proper prefix sorting lower). All parsing is done on character lists so
every definition evaluates inside the kernel. -/

/-- Split a character list at every occurrence of the separator. -/
def splitOnChar (sep : Char) : List Char → List (List Char)
  | [] => [[]]
  | c :: cs =>
    let rest := splitOnChar sep cs
    if c == sep then [] :: rest
    else
      match rest with
      | [] => [[c]]
      | r :: rs => (c :: r) :: rs

/-- Join character lists, putting the separator between adjacent pieces. -/
def joinWithChar (sep : Char) : List (List Char) → List Char
  | [] => []
  | [x] => x
  | x :: xs => x ++ sep :: joinWithChar sep xs

/-- Decimal value of a digit list. -/
def digitsToNat (cs : List Char) : Nat :=
  cs.foldl (fun n c => n * 10 + (c.toNat - 48)) 0

/-- A numeric identifier: digits only, non-empty, no leading zero. -/
def isNumericIdent (cs : List Char) : Bool :=
  match cs with
  | [] => false
  | c :: rest => (c :: rest).all Char.isDigit && (rest.isEmpty || c != '0')

/-- Characters allowed in pre-release and build identifiers. -/
def isAlnumHyphen (c : Char) : Bool := c.isAlpha || c.isDigit || c == '-'

/-- A pre-release identifier: alphanumeric/hyphen, non-empty, and if it is
all digits it carries no leading zero. -/
def isPreReleaseIdent (cs : List Char) : Bool :=
  match cs with
  | [] => false
  | c :: rest =>
    (c :: rest).all isAlnumHyphen &&
      (if (c :: rest).all Char.isDigit then rest.isEmpty || c != '0' else true)

/-- A build identifier: alphanumeric/hyphen and non-empty. -/
def isBuildIdent (cs : List Char) : Bool :=
  !cs.isEmpty && cs.all isAlnumHyphen

/-- A parsed semantic version (build metadata is ignored for precedence). -/
structure SemVer where
  major : Nat
  minor : Nat
  patch : Nat
  preRelease : List (List Char)
deriving DecidableEq

/-- Parse MAJOR.MINOR.PATCH with an optional -pre-release tail (the first
hyphen separates it; later hyphens belong to the identifiers). -/
def parseMainAndPre (core : List Char) : Option SemVer :=
  match splitOnChar '-' core with
  | [] => none
  | main :: rest =>
    match splitOnChar '.' main with
    | [a, b, c] =>
      if isNumericIdent a && isNumericIdent b && isNumericIdent c then
        if rest.isEmpty then
          some { major := digitsToNat a, minor := digitsToNat b,
                 patch := digitsToNat c, preRelease := [] }
        else
          let ids := splitOnChar '.' (joinWithChar '-' rest)
          if ids.all isPreReleaseIdent then
            some { major := digitsToNat a, minor := digitsToNat b,
                   patch := digitsToNat c, preRelease := ids }
          else none
      else none
    | _ => none

/-- Parse a full semantic version string, stripping and checking optional
+build metadata first. -/
def parseSemVer (s : String) : Option SemVer :=
  match splitOnChar '+' s.toList with
  | [core] => parseMainAndPre core
  | [core, build] =>
    if (splitOnChar '.' build).all isBuildIdent then parseMainAndPre core
    else none
  | _ => none

/-- Lexicographic comparison of character lists by code point. -/
def compareCharLists : List Char → List Char → Ordering
  | [], [] => .eq
  | [], _ :: _ => .lt
  | _ :: _, [] => .gt
  | a :: as, b :: bs =>
    if a < b then .lt else if b < a then .gt else compareCharLists as bs

/-- One pre-release identifier against another: numeric below alphanumeric,
numeric ones numerically, alphanumeric ones lexicographically. -/
def comparePreReleaseIdent (a b : List Char) : Ordering :=
  if a.all Char.isDigit then
    if b.all Char.isDigit then compare (digitsToNat a) (digitsToNat b) else .lt
  else if b.all Char.isDigit then .gt
  else compareCharLists a b

/-- Pointwise comparison of pre-release identifier lists; a proper prefix
sorts lower. -/
def comparePreReleaseLists : List (List Char) → List (List Char) → Ordering
  | [], [] => .eq
  | [], _ :: _ => .lt
  | _ :: _, [] => .gt
  | a :: as, b :: bs =>
    match comparePreReleaseIdent a b with
    | .eq => comparePreReleaseLists as bs
    | o => o

/-- Semantic-version precedence: the three numbers, then pre-release
presence (a release is above any of its pre-releases), then the identifier
lists. -/
def compareSemVer (x y : SemVer) : Ordering :=
  match compare x.major y.major with
  | .eq =>
    match compare x.minor y.minor with
    | .eq =>
      match compare x.patch y.patch with
      | .eq =>
        match x.preRelease, y.preRelease with
        | [], [] => .eq
        | [], _ :: _ => .gt
        | _ :: _, [] => .lt
        | xs, ys => comparePreReleaseLists xs ys
      | o => o
    | o => o
  | o => o

/-- semver.valid: the string is a syntactically valid semantic version. -/
def semverValid (s : String) : Bool := (parseSemVer s).isSome

/-- semver.lt on two version strings (the source only calls it on strings
already known to be valid; on anything else the model answers false). -/
def semverLt (a b : String) : Bool :=
  match parseSemVer a, parseSemVer b with
  | some x, some y => compareSemVer x y == .lt
  | _, _ => false

/-! ## Byte-Size Parser
Modelled from the spec (section 4.1): the byte-size dependency is an
external collaborator, not code under src/. It maps a decimal magnitude
plus a unit from a fixed table to a byte count and returns the invalid
indicator (none) on anything else; the model covers integer magnitudes. -/

/-- Byte multiplier of a unit suffix, case-insensitive. -/
def bytesUnitFactor (unit : List Char) : Option Nat :=
  match unit.map Char.toLower with
  | ['b'] => some 1
  | ['k', 'b'] => some 1024
  | ['m', 'b'] => some (1024 * 1024)
  | ['g', 'b'] => some (1024 * 1024 * 1024)
  | ['t', 'b'] => some (1024 * 1024 * 1024 * 1024)
  | ['p', 'b'] => some (1024 * 1024 * 1024 * 1024 * 1024)
  | _ => none

/-- bytes.parse on a size string: leading decimal digits, optional spaces,
optional unit from the table; none when the shape is not that. -/
def bytesParse (s : String) : Option Nat :=
  let cs := s.toList
  let digits := cs.takeWhile Char.isDigit
  let rest := (cs.dropWhile Char.isDigit).dropWhile (fun c => c == ' ')
  if digits.isEmpty then none
  else if rest.isEmpty then some (digitsToNat digits)
  else
    match bytesUnitFactor rest with
    | some f => some (digitsToNat digits * f)
    | none => none

/-- Decidable equality for Except, so concrete runs of the embedded
fallible functions evaluate by decide. -/
instance exceptDecEq {ε α : Type} [DecidableEq ε] [DecidableEq α] :
    DecidableEq (Except ε α) := fun a b =>
  match a, b with
  | .ok x, .ok y =>
    if h : x = y then .isTrue (by rw [h]) else .isFalse (by simp [h])
  | .error x, .error y =>
    if h : x = y then .isTrue (by rw [h]) else .isFalse (by simp [h])
  | .ok _, .error _ => .isFalse (by simp)
  | .error _, .ok _ => .isFalse (by simp)

/-! ## Image Metadata Validator (getImageInfo, src/commands/build.mjs 19-85) -/

/-- What docker image inspect exposes of the image: architecture, the label
map (already defaulted to empty when null, line 35), Cmd and Entrypoint
(null or an array), Env (null defaulted to empty, line 40) and WorkingDir. -/
structure ImageInspect where
  architecture : String
  labels : List (String × String)
  cmd : Option (List String)
  entrypoint : Option (List String)
  env : List String
  workdir : Option String
deriving DecidableEq

/-- The derived configuration record (the info object, lines 36-46). -/
structure ImageInfo where
  cmd : List String
  dataSize : String
  entrypoint : List String
  env : List String
  ramSize : String
  sdkName : String
  sdkVersion : String
  workdir : Option String
deriving DecidableEq

/-- How getImageInfo can abort: the three thrown Errors, plus the TypeError
raised when a this.warn line runs with this undefined (build is called as a
plain function in a strict-mode module, src/unnamed/part_000 line 14, so
this is undefined throughout). -/
inductive BuildError where
  | invalidArchitecture (arch : String)
  | missingBootCommand
  | thisWarnTypeError
  | unsupportedSdkVersion (used : String)
  | invalidDataSize (value : String)
deriving DecidableEq

/-- Lines 36-46: the info record, with each label defaulted through the
nullish operator (an empty-string label value is kept, not replaced). -/
def mkImageInfo (i : ImageInspect) : ImageInfo :=
  { cmd := i.cmd.getD []
    dataSize := (i.labels.lookup "io.cartesi.rollups.data_size").getD "10Mb"
    entrypoint := i.entrypoint.getD []
    env := i.env
    ramSize := (i.labels.lookup "io.cartesi.rollups.ram_size").getD "128Mi"
    sdkName := (i.labels.lookup "io.cartesi.rollups.sdk_name").getD "cartesi/sdk"
    sdkVersion := (i.labels.lookup "io.cartesi.rollups.sdk_version").getD "0.9.0"
    workdir := i.workdir }

/-- Lines 19-85 of src/commands/build.mjs in source order: the architecture
check, the boot-command guard (negating two arrays, hence never taken), the
semver branch (whose warn call is a TypeError at runtime), the minimum
sdk-version check against 0.9.0, the two defaulting warns (TypeErrors when
reached), and the data-size parse check. -/
def getImageInfo (i : ImageInspect) : Except BuildError ImageInfo :=
  if i.architecture != "riscv64" then
    .error (.invalidArchitecture i.architecture)
  else
    let info := mkImageInfo i
    if !jsArrayTruthy info.entrypoint && !jsArrayTruthy info.cmd then
      .error .missingBootCommand
    else if !semverValid info.sdkVersion then
      .error .thisWarnTypeError
    else if info.sdkName == "cartesi/sdk" && semverLt info.sdkVersion "0.9.0" then
      .error (.unsupportedSdkVersion info.sdkVersion)
    else if !jsStringTruthy info.sdkVersion then
      .error .thisWarnTypeError
    else if !jsStringTruthy info.ramSize then
      .error .thisWarnTypeError
    else if (bytesParse info.dataSize).isNone then
      .error (.invalidDataSize info.dataSize)
    else
      .ok info

/-! ## Stage Command Builders (src/commands/build.mjs 120-181) -/

/-- Lines 121-138: the piped crane/bsdtar command, joined into one shell
string exactly as the source's Array.join with a single space. -/
def createRootfsTarCommand : List String :=
  let cmd := ["cat", "/tmp/input", "|", "crane", "export", "-", "-", "|",
    "bsdtar", "-cf", "/tmp/output", "--format=gnutar", "@/dev/stdin"]
  ["/usr/bin/env", "bash", "-c", String.intercalate " " cmd]

/-- Lines 141-157: the xgenext2fs command; Math.ceil of the slack divided by
the block size is, for a non-negative integer, (extraBytes + blockSize - 1)
divided by blockSize in truncating division. -/
def createExt2Command (extraBytes : Nat) : List String :=
  let blockSize := 4096
  let extraBlocks := (extraBytes + blockSize - 1) / blockSize
  let extraSize := "+" ++ toString extraBlocks
  ["xgenext2fs", "--tarball", "/tmp/input", "--block-size",
    toString blockSize, "--faketime", "-r", extraSize, "/tmp/output"]

/-- Line 170: the workdir argument is the --workdir option when the workdir
is a truthy (non-empty) string, and the empty string otherwise — it is never
dropped from the argument list. -/
def workdirArg : Option String → String
  | some w => if jsStringTruthy w then "--workdir=" ++ w else ""
  | none => ""

/-- Lines 159-181: the create_machine_snapshot command. -/
def createMachineSnapshotCommand (info : ImageInfo) : List String :=
  let ramSize := info.ramSize
  let driveLabel := "root"
  let envs := info.env.map (fun v => "--env=" ++ v)
  let entrypoint := String.intercalate " " (info.entrypoint ++ info.cmd)
  let cwd := workdirArg info.workdir
  ["create_machine_snapshot",
    "--ram-length=" ++ ramSize,
    "--drive-label=" ++ driveLabel,
    "--drive-filename=/tmp/input",
    "--output=/tmp/output",
    cwd] ++ envs ++ ["--entrypoint=" ++ entrypoint]

example : semverValid "0.9.0" = true := by decide
example : semverValid "latest" = false := by decide
example : semverLt "0.8.0" "0.9.0" = true := by decide
example : semverLt "0.9.0" "0.9.0" = false := by decide
example : semverLt "0.9.0-alpha" "0.9.0" = true := by decide
example : bytesParse "10Mb" = some 10485760 := by decide
example : bytesParse "128Mi" = none := by decide
/-- An inspected image with architecture riscv64, no labels, and an empty
Cmd and Entrypoint: the failing input of the boot-command guard. -/
def emptyBootInspect : ImageInspect :=
  { architecture := "riscv64"
    labels := []
    cmd := some []
    entrypoint := some []
    env := []
    workdir := none }

/-- The configuration the validator derives for emptyBootInspect. -/
def emptyBootInfo : ImageInfo :=
  { cmd := []
    dataSize := "10Mb"
    entrypoint := []
    env := []
    ramSize := "128Mi"
    sdkName := "cartesi/sdk"
    sdkVersion := "0.9.0"
    workdir := none }

example : getImageInfo emptyBootInspect = .ok emptyBootInfo := by decide
example : createExt2Command 0 = ["xgenext2fs", "--tarball", "/tmp/input",
    "--block-size", "4096", "--faketime", "-r", "+0", "/tmp/output"] := by decide

/-! ## Ephemeral Execution Environment Adapter (sdkRun, build.mjs 95-118)
sdkRun is five awaited docker invocations in a straight line, with no
try/finally around them: each await either succeeds or throws the
invocation's non-zero exit code out of sdkRun, skipping everything after
it. The embedding takes an outcome oracle for the five external calls and
returns the result together with the list of docker argument vectors that
were actually executed, in order. -/

/-- Outcomes of the five docker calls inside one sdkRun invocation: the
container id returned by create (or its failing exit code), and for the
other four either none (exit 0) or some failing exit code. -/
structure SdkRunOutcomes where
  createRes : Except Nat String
  startExit : Option Nat
  copyExit : Option Nat
  stopExit : Option Nat
  rmExit : Option Nat
deriving DecidableEq

/-- Lines 95-118 of src/commands/build.mjs: create with the input volume,
start attached, cp the output artifact, stop, rm — sequentially, stopping
at the first throw. The second component lists the docker commands run. -/
def sdkRunTrace (o : SdkRunOutcomes) (sdkImage : String) (cmd : List String)
    (inputPath outputPath : String) : Except Nat Unit × List (List String) :=
  let createArgs :=
    ["container", "create", "--volume", inputPath ++ ":/tmp/input", sdkImage] ++ cmd
  match o.createRes with
  | .error c => (.error c, [createArgs])
  | .ok cid =>
    let startArgs := ["container", "start", "-a", cid]
    match o.startExit with
    | some c => (.error c, [createArgs, startArgs])
    | none =>
      let cpArgs := ["container", "cp", cid ++ ":/tmp/output", outputPath]
      match o.copyExit with
      | some c => (.error c, [createArgs, startArgs, cpArgs])
      | none =>
        let stopArgs := ["container", "stop", cid]
        match o.stopExit with
        | some c => (.error c, [createArgs, startArgs, cpArgs, stopArgs])
        | none =>
          let rmArgs := ["container", "rm", cid]
          match o.rmExit with
          | some c => (.error c, [createArgs, startArgs, cpArgs, stopArgs, rmArgs])
          | none => (.ok (), [createArgs, startArgs, cpArgs, stopArgs, rmArgs])

/-- The result of one sdkRun invocation alone (it does not depend on the
image, command or paths): the exit code of the first failing docker call. -/
def sdkRunResult (o : SdkRunOutcomes) : Except Nat Unit :=
  match o.createRes with
  | .error c => .error c
  | .ok _ =>
    match o.startExit with
    | some c => .error c
    | none =>
      match o.copyExit with
      | some c => .error c
      | none =>
        match o.stopExit with
        | some c => .error c
        | none =>
          match o.rmExit with
          | some c => .error c
          | none => .ok ()

/-- Coherence of the two views of sdkRun: the first component of the trace
semantics is sdkRunResult, whatever the image, command and paths. -/
theorem sdkRunTrace_fst (o : SdkRunOutcomes) (img : String) (cmd : List String)
    (inp outp : String) :
    (sdkRunTrace o img cmd inp outp).1 = sdkRunResult o := by
  obtain ⟨cr, se, ce, ste, re⟩ := o
  cases cr <;> cases se <;> cases ce <;> cases ste <;> cases re <;>
    simp [sdkRunTrace, sdkRunResult]

/-! ## Pipeline Orchestrator (run, src/commands/build.mjs 183-232) -/

/-- Working-area paths. Modelled from the spec: getAbsolutePath lives in
helper.mjs, which is not under src/, and path resolution is out of scope
(section 1); the spec requires only that intermediates are deterministically
named relative to the single working area (section 3). -/
def getAbsolutePath (parts : List String) : String :=
  String.intercalate "/" (".cartesi" :: parts)

/-- Filesystem effects of one pipeline run on the working area. fs.remove
tolerates an already-absent target, so a remove effect always succeeds. -/
inductive FsEffect where
  | emptyDir (path : String)
  | writeFile (path : String)
  | chmod (path : String) (mode : Nat)
  | remove (path : String)
deriving DecidableEq

/-- How a pipeline run can abort: a validation error thrown by getImageInfo
before the try block, or a stage's non-zero exit code. -/
inductive RunError where
  | validation (e : BuildError)
  | stageFailed (exitCode : Nat)
deriving DecidableEq

/-- Outcome oracle for one pipeline run: what docker image inspect reports,
whether docker image save succeeds (none) or fails with an exit code, and
the outcomes of the three sdkRun stages. -/
structure RunOutcomes where
  inspect : ImageInspect
  tarballExit : Option Nat
  rootfs : SdkRunOutcomes
  ext2 : SdkRunOutcomes
  snapshot : SdkRunOutcomes
deriving DecidableEq

/-- The host-side artifact a sdkRun stage leaves: docker cp writes the
output path iff create, start and cp all succeeded (a later stop/rm failure
still throws, but the artifact is already on the host). -/
def sdkRunWrites (o : SdkRunOutcomes) (outputPath : String) : List FsEffect :=
  match o.createRes, o.startExit, o.copyExit with
  | .ok _, none, none => [.writeFile outputPath]
  | _, _, _ => []

/-- Lines 183-231 of src/commands/build.mjs: empty the working area, run
getImageInfo (throwing before the try block on failure), then inside
try: docker image save to image.tar, the three sdkRun stages producing
image.gnutar, image.ext2 and the snapshot, chmod 755 on the snapshot; and
in finally: fs.remove of image.gnutar and of image.tar — those two paths
only — executed on success and on every failure inside the try block. -/
def runBuild (o : RunOutcomes) : Except RunError Unit × List FsEffect :=
  let snapshotPath := getAbsolutePath ["image"]
  let tarPath := getAbsolutePath ["image.tar"]
  let gnuTarPath := getAbsolutePath ["image.gnutar"]
  let ext2Path := getAbsolutePath ["image.ext2"]
  let e0 := [FsEffect.emptyDir (getAbsolutePath [])]
  match getImageInfo o.inspect with
  | .error err => (.error (.validation err), e0)
  | .ok _info =>
    let fin := [FsEffect.remove gnuTarPath, FsEffect.remove tarPath]
    match o.tarballExit with
    | some c => (.error (.stageFailed c), e0 ++ fin)
    | none =>
      let e1 := e0 ++ [FsEffect.writeFile tarPath]
      match sdkRunResult o.rootfs with
      | .error c => (.error (.stageFailed c), e1 ++ sdkRunWrites o.rootfs gnuTarPath ++ fin)
      | .ok _ =>
        let e2 := e1 ++ sdkRunWrites o.rootfs gnuTarPath
        match sdkRunResult o.ext2 with
        | .error c => (.error (.stageFailed c), e2 ++ sdkRunWrites o.ext2 ext2Path ++ fin)
        | .ok _ =>
          let e3 := e2 ++ sdkRunWrites o.ext2 ext2Path
          match sdkRunResult o.snapshot with
          | .error c =>
            (.error (.stageFailed c), e3 ++ sdkRunWrites o.snapshot snapshotPath ++ fin)
          | .ok _ =>
            (.ok (),
              e3 ++ sdkRunWrites o.snapshot snapshotPath ++
                [FsEffect.chmod snapshotPath 493] ++ fin)

/-! ## The run command (src/commands/run.mjs 109-126)
The compose environment is brought up inside try, a caught failure is
re-thrown unless its exit code is 130, and the finally block always runs
compose down with volumes. The compose file arguments and the up
attach/progress arguments are built earlier in the function from the
installation path and flags; the lifecycle takes them as given. -/

/-- Lines 109-126 of src/commands/run.mjs: the result of the run command
from the compose-up exit (none = exit 0) and the docker commands executed.
Exit code 130 is swallowed in the catch block; any other non-zero exit is
re-thrown after the finally block runs compose down --volumes. -/
def runComposeLifecycle (composeArgs upArgs : List String) (upExit : Option Nat) :
    Except Nat Unit × List (List String) :=
  let upCmd := composeArgs ++ ["up"] ++ upArgs
  let downCmd := composeArgs ++ ["down", "--volumes"]
  match upExit with
  | none => (.ok (), [upCmd, downCmd])
  | some c => (if c = 130 then .ok () else .error c, [upCmd, downCmd])

/-! ## Claim theorems -/

/-- C7: for every non-negative integer slack-byte allowance, the
filesystem-to-block-image command builder emits exactly the xgenext2fs
command with block size 4096, the faketime flag, and the extra-size
argument a plus sign followed by the slack rounded up to whole 4096-byte
blocks: the block count k satisfies n ≤ 4096 k < n + 4096. -/
theorem createExt2Command_rounding (n : Nat) :
    createExt2Command n =
      ["xgenext2fs", "--tarball", "/tmp/input", "--block-size", "4096",
        "--faketime", "-r", "+" ++ toString ((n + 4096 - 1) / 4096), "/tmp/output"] ∧
    n ≤ 4096 * ((n + 4096 - 1) / 4096) ∧
    4096 * ((n + 4096 - 1) / 4096) < n + 4096 := by
  refine ⟨rfl, ?_, ?_⟩ <;> omega

/-- C8: for every configuration, the block-image-to-snapshot command starts
with the tool name, carries the configured RAM size, the fixed drive label
root, the fixed input and output paths, exactly one env argument per
environment variable in order (positions 6 to 5+n of a (7+n)-element
command), and ends with the entrypoint argument: the entrypoint sequence
concatenated with the command sequence, joined by single spaces. -/
theorem createMachineSnapshotCommand_shape (info : ImageInfo) :
    (createMachineSnapshotCommand info).head? = some "create_machine_snapshot" ∧
    (createMachineSnapshotCommand info).get? 1 = some ("--ram-length=" ++ info.ramSize) ∧
    (createMachineSnapshotCommand info).get? 2 = some "--drive-label=root" ∧
    (createMachineSnapshotCommand info).get? 3 = some "--drive-filename=/tmp/input" ∧
    (createMachineSnapshotCommand info).get? 4 = some "--output=/tmp/output" ∧
    ((createMachineSnapshotCommand info).drop 6).take info.env.length =
      info.env.map (fun v => "--env=" ++ v) ∧
    (createMachineSnapshotCommand info).getLast? =
      some ("--entrypoint=" ++ String.intercalate " " (info.entrypoint ++ info.cmd)) ∧
    (createMachineSnapshotCommand info).length = 7 + info.env.length := by
  refine ⟨rfl, rfl, rfl, rfl, rfl, ?_, ?_, ?_⟩
  · show (info.env.map (fun v => "--env=" ++ v) ++
        ["--entrypoint=" ++ String.intercalate " " (info.entrypoint ++ info.cmd)]).take
        info.env.length = info.env.map (fun v => "--env=" ++ v)
    rw [← List.length_map info.env (fun v => "--env=" ++ v)]
    exact List.take_left _ _
  · show (("create_machine_snapshot" :: _) ++ _).getLast? = _
    rw [List.getLast?_append]
    rfl
  · simp [createMachineSnapshotCommand]
    omega

/-- C10: when the working directory is absent or empty, the snapshot
command still carries an element at the workdir position — the empty
string — so the command has the same length as with any working
directory set. -/
theorem snapshotCommand_workdir_never_omitted (info : ImageInfo) (w : Option String)
    (h : info.workdir = none ∨ info.workdir = some "") :
    (createMachineSnapshotCommand info).get? 5 = some "" ∧
    (createMachineSnapshotCommand { info with workdir := w }).length =
      (createMachineSnapshotCommand info).length := by
  constructor
  · have base : (createMachineSnapshotCommand info).get? 5 =
        some (workdirArg info.workdir) := rfl
    rcases h with h | h <;> rw [base, h] <;> rfl
  · simp [createMachineSnapshotCommand]

/-- A configuration with no working directory, used to instantiate the
workdir-position theorem. -/
def noWorkdirInfo : ImageInfo :=
  { cmd := ["node", "app.js"]
    dataSize := "10Mb"
    entrypoint := []
    env := ["A=1", "B=2"]
    ramSize := "128Mi"
    sdkName := "cartesi/sdk"
    sdkVersion := "0.9.0"
    workdir := none }

/-- C10 witness: the workdir-position theorem at a concrete configuration
without a working directory, against the same configuration with /app. -/
theorem snapshotCommand_workdir_never_omitted_witness :
    (noWorkdirInfo.workdir = none ∨ noWorkdirInfo.workdir = some "") ∧
    ((createMachineSnapshotCommand noWorkdirInfo).get? 5 = some "" ∧
      (createMachineSnapshotCommand { noWorkdirInfo with workdir := some "/app" }).length =
        (createMachineSnapshotCommand noWorkdirInfo).length) :=
  ⟨Or.inl rfl,
    snapshotCommand_workdir_never_omitted noWorkdirInfo (some "/app") (Or.inl rfl)⟩

/-- C9: for every run-command invocation, the compose-up command and the
compose-down-with-volumes teardown both execute whatever the up exit was;
exit code 130 is swallowed (the command succeeds), exit 0 succeeds, and
any other non-zero exit code is re-raised. -/
theorem runCompose_teardown_and_exit130 (composeArgs upArgs : List String)
    (upExit : Option Nat) :
    (runComposeLifecycle composeArgs upArgs upExit).2 =
      [composeArgs ++ ["up"] ++ upArgs, composeArgs ++ ["down", "--volumes"]] ∧
    (upExit = some 130 → (runComposeLifecycle composeArgs upArgs upExit).1 = .ok ()) ∧
    (∀ c : Nat, upExit = some c → c ≠ 130 →
      (runComposeLifecycle composeArgs upArgs upExit).1 = .error c) ∧
    (upExit = none → (runComposeLifecycle composeArgs upArgs upExit).1 = .ok ()) := by
  refine ⟨?_, ?_, ?_, ?_⟩
  · cases upExit <;> rfl
  · intro h; subst h; rfl
  · intro c h hne; subst h; simp [runComposeLifecycle, hne]
  · intro h; subst h; rfl

/-- C2 counterexample: when the start-and-stream step exits non-zero, the
one-shot adapter executes only create and start; the container is neither
stopped nor removed, refuting the unconditional-teardown claim. -/
theorem sdkRun_start_failure_skips_teardown :
    (sdkRunTrace ⟨.ok "c1", some 1, none, none, none⟩ "cartesi/sdk:0.9.0"
        ["xgenext2fs"] "/w/image.gnutar" "/w/image.ext2").2 =
      [["container", "create", "--volume", "/w/image.gnutar:/tmp/input",
        "cartesi/sdk:0.9.0", "xgenext2fs"],
       ["container", "start", "-a", "c1"]] ∧
    ["container", "stop", "c1"] ∉
      (sdkRunTrace ⟨.ok "c1", some 1, none, none, none⟩ "cartesi/sdk:0.9.0"
        ["xgenext2fs"] "/w/image.gnutar" "/w/image.ext2").2 ∧
    ["container", "rm", "c1"] ∉
      (sdkRunTrace ⟨.ok "c1", some 1, none, none, none⟩ "cartesi/sdk:0.9.0"
        ["xgenext2fs"] "/w/image.gnutar" "/w/image.ext2").2 := by
  decide

/-- C2 amended: the adapter stops the container iff the start and copy-out
steps both succeeded, and removes it iff stop also succeeded; a failure of
start or copy-out skips the teardown entirely. -/
theorem sdkRun_teardown_only_on_success (o : SdkRunOutcomes) (img inp outp cid : String)
    (cmd : List String) (hc : o.createRes = .ok cid) :
    (["container", "stop", cid] ∈ (sdkRunTrace o img cmd inp outp).2 ↔
      o.startExit = none ∧ o.copyExit = none) ∧
    (["container", "rm", cid] ∈ (sdkRunTrace o img cmd inp outp).2 ↔
      o.startExit = none ∧ o.copyExit = none ∧ o.stopExit = none) := by
  obtain ⟨cr, se, ce, ste, re⟩ := o
  have hc2 : cr = .ok cid := hc
  subst hc2
  cases se <;> cases ce <;> cases ste <;> cases re <;> simp [sdkRunTrace]

/-- A fully successful one-shot invocation, for the teardown witness. -/
def allOkSdkOutcomes : SdkRunOutcomes :=
  { createRes := .ok "c2f7"
    startExit := none
    copyExit := none
    stopExit := none
    rmExit := none }

/-- C2 amended witness: the teardown theorem at a concrete fully successful
invocation. -/
theorem sdkRun_teardown_only_on_success_witness :
    allOkSdkOutcomes.createRes = .ok "c2f7" ∧
    ((["container", "stop", "c2f7"] ∈
        (sdkRunTrace allOkSdkOutcomes "cartesi/sdk:0.9.0" ["xgenext2fs"]
          "/w/image.gnutar" "/w/image.ext2").2 ↔
      allOkSdkOutcomes.startExit = none ∧ allOkSdkOutcomes.copyExit = none) ∧
     (["container", "rm", "c2f7"] ∈
        (sdkRunTrace allOkSdkOutcomes "cartesi/sdk:0.9.0" ["xgenext2fs"]
          "/w/image.gnutar" "/w/image.ext2").2 ↔
      allOkSdkOutcomes.startExit = none ∧ allOkSdkOutcomes.copyExit = none ∧
        allOkSdkOutcomes.stopExit = none)) :=
  ⟨rfl, sdkRun_teardown_only_on_success allOkSdkOutcomes "cartesi/sdk:0.9.0"
    "/w/image.gnutar" "/w/image.ext2" "c2f7" ["xgenext2fs"] rfl⟩

/-- C3: on an image whose entrypoint and command are both empty, the
validator does not fail — it returns the defaulted configuration with an
empty boot command — and in fact the missing-boot-command error is
unreachable for every input, because the guard negates two values that are
always arrays (always truthy) after the nullish defaulting. -/
theorem validator_accepts_empty_boot_command :
    getImageInfo emptyBootInspect = .ok emptyBootInfo ∧
    ∀ i : ImageInspect, getImageInfo i ≠ .error .missingBootCommand := by
  refine ⟨by decide, ?_⟩
  intro i h
  unfold getImageInfo at h
  simp only [jsArrayTruthy] at h
  repeat' split at h
  all_goals simp_all

/-- The inspected image of the invalid-semver run: a riscv64 image whose
sdk_version label is the non-semver string latest. -/
def invalidSemverInspect : ImageInspect :=
  { architecture := "riscv64"
    labels := [("io.cartesi.rollups.sdk_version", "latest")]
    cmd := some ["node", "app.js"]
    entrypoint := none
    env := []
    workdir := none }

/-- C4: on an image carrying a syntactically invalid toolset version the
validator does not warn and continue: the warn call is this.warn with this
undefined (build is invoked as a plain function in a strict-mode module),
so a TypeError aborts the validator and no configuration is returned. -/
theorem validator_invalid_semver_is_fatal :
    getImageInfo invalidSemverInspect = .error .thisWarnTypeError ∧
    ∀ i : ImageInspect, i.architecture = "riscv64" →
      semverValid (mkImageInfo i).sdkVersion = false →
      getImageInfo i = .error .thisWarnTypeError := by
  refine ⟨by decide, ?_⟩
  intro i harch hv
  have ha : (i.architecture != "riscv64") = false := by simp [harch]
  simp [getImageInfo, ha, jsArrayTruthy, hv]

/-- C5: on a riscv64 image whose toolset name is the default cartesi/sdk
and whose version label is a valid semantic version, the validator throws
the unsupported-version error when the version is strictly below the
minimum 0.9.0, and never throws it when the version is exactly 0.9.0. -/
theorem validator_sdk_version_gate (i : ImageInspect)
    (harch : i.architecture = "riscv64")
    (hname : (mkImageInfo i).sdkName = "cartesi/sdk")
    (hvalid : semverValid (mkImageInfo i).sdkVersion = true) :
    (semverLt (mkImageInfo i).sdkVersion "0.9.0" = true →
      getImageInfo i = .error (.unsupportedSdkVersion (mkImageInfo i).sdkVersion)) ∧
    ((mkImageInfo i).sdkVersion = "0.9.0" →
      ∀ v : String, getImageInfo i ≠ .error (.unsupportedSdkVersion v)) := by
  have ha : (i.architecture != "riscv64") = false := by simp [harch]
  constructor
  · intro hlt
    simp [getImageInfo, ha, jsArrayTruthy, hvalid, hname, hlt]
  · intro h09 v
    have hlt : semverLt (mkImageInfo i).sdkVersion "0.9.0" = false := by
      rw [h09]; decide
    simp only [getImageInfo, ha, jsArrayTruthy, hvalid, hlt, Bool.not_true,
      Bool.and_false, Bool.false_and, Bool.and_self, Bool.not_false]
    repeat' split
    all_goals simp_all

/-- The inspected image of the outdated-toolset run: sdk_version 0.8.0,
one patch line below the minimum. -/
def outdatedSdkInspect : ImageInspect :=
  { architecture := "riscv64"
    labels := [("io.cartesi.rollups.sdk_version", "0.8.0")]
    cmd := some ["node", "app.js"]
    entrypoint := none
    env := []
    workdir := none }

/-- The inspected image of the boundary run: sdk_version exactly 0.9.0. -/
def boundarySdkInspect : ImageInspect :=
  { architecture := "riscv64"
    labels := [("io.cartesi.rollups.sdk_version", "0.9.0")]
    cmd := some ["node", "app.js"]
    entrypoint := none
    env := []
    workdir := none }

/-- C5 witness: the gate theorem applied on both sides of the boundary —
version 0.8.0 is rejected with the unsupported-version error, and version
0.9.0 is never rejected with it. -/
theorem validator_sdk_version_gate_witness :
    (outdatedSdkInspect.architecture = "riscv64" ∧
      (mkImageInfo outdatedSdkInspect).sdkName = "cartesi/sdk" ∧
      semverValid (mkImageInfo outdatedSdkInspect).sdkVersion = true ∧
      getImageInfo outdatedSdkInspect = .error (.unsupportedSdkVersion "0.8.0")) ∧
    (boundarySdkInspect.architecture = "riscv64" ∧
      (mkImageInfo boundarySdkInspect).sdkName = "cartesi/sdk" ∧
      semverValid (mkImageInfo boundarySdkInspect).sdkVersion = true ∧
      ∀ v : String, getImageInfo boundarySdkInspect ≠ .error (.unsupportedSdkVersion v)) :=
  ⟨⟨rfl, rfl, by decide,
      (validator_sdk_version_gate outdatedSdkInspect rfl rfl (by decide)).1 (by decide)⟩,
    ⟨rfl, rfl, by decide,
      (validator_sdk_version_gate boundarySdkInspect rfl rfl (by decide)).2 rfl⟩⟩

/-- C6: when the inspected architecture is not riscv64, the pipeline run
fails with the invalid-architecture error and its only effect on the
working area is the initial emptying: no tarball, no stage output, no
chmod, no removal — whatever the outcomes of the later stages would have
been. -/
theorem build_arch_mismatch_stops_pipeline (o : RunOutcomes)
    (h : o.inspect.architecture ≠ "riscv64") :
    (runBuild o).1 = .error (.validation (.invalidArchitecture o.inspect.architecture)) ∧
    (runBuild o).2 = [FsEffect.emptyDir (getAbsolutePath [])] := by
  have hb : (o.inspect.architecture != "riscv64") = true := by
    simpa [bne_iff_ne] using h
  constructor <;> simp [runBuild, getImageInfo, hb]

/-- An amd64 image fed to the pipeline with every later stage set up to
succeed, for the architecture-rejection witness. -/
def badArchOutcomes : RunOutcomes :=
  { inspect :=
      { architecture := "amd64"
        labels := []
        cmd := some ["node", "app.js"]
        entrypoint := none
        env := []
        workdir := none }
    tarballExit := none
    rootfs := ⟨.ok "r1", none, none, none, none⟩
    ext2 := ⟨.ok "r2", none, none, none, none⟩
    snapshot := ⟨.ok "r3", none, none, none, none⟩ }

/-- C6 witness: the architecture-rejection theorem at the concrete amd64
image. -/
theorem build_arch_mismatch_stops_pipeline_witness :
    badArchOutcomes.inspect.architecture ≠ "riscv64" ∧
    ((runBuild badArchOutcomes).1 =
        .error (.validation (.invalidArchitecture "amd64")) ∧
      (runBuild badArchOutcomes).2 = [FsEffect.emptyDir (getAbsolutePath [])]) :=
  ⟨by decide, build_arch_mismatch_stops_pipeline badArchOutcomes (by decide)⟩

/-- A stage never removes anything: its only host-side effect is writing
its output artifact when the copy-out succeeded. -/
theorem remove_not_mem_sdkRunWrites (o : SdkRunOutcomes) (p q : String) :
    FsEffect.remove p ∉ sdkRunWrites o q := by
  unfold sdkRunWrites
  split <;> simp

/-- A well-formed riscv64 image whose build run succeeds end to end. -/
def goodInspect : ImageInspect :=
  { architecture := "riscv64"
    labels := [("io.cartesi.rollups.ram_size", "256Mi"),
      ("io.cartesi.rollups.data_size", "20Mb")]
    cmd := some ["node", "app.js"]
    entrypoint := some []
    env := ["NODE_ENV=production"]
    workdir := some "/app" }

/-- A pipeline run of goodInspect in which every external step succeeds. -/
def successOutcomes : RunOutcomes :=
  { inspect := goodInspect
    tarballExit := none
    rootfs := ⟨.ok "r1", none, none, none, none⟩
    ext2 := ⟨.ok "r2", none, none, none, none⟩
    snapshot := ⟨.ok "r3", none, none, none, none⟩ }

/-- C1: a fully successful pipeline run does write the block image
image.ext2 and does remove image.gnutar and image.tar at the end, but it
never removes image.ext2 — indeed no run (success or failure) ever emits a
remove of image.ext2 — so the block image is retained beside the snapshot,
against the claim that all three intermediates are deleted. -/
theorem build_cleanup_misses_ext2 :
    ((runBuild successOutcomes).1 = .ok () ∧
      FsEffect.writeFile (getAbsolutePath ["image.ext2"]) ∈ (runBuild successOutcomes).2 ∧
      FsEffect.remove (getAbsolutePath ["image.gnutar"]) ∈ (runBuild successOutcomes).2 ∧
      FsEffect.remove (getAbsolutePath ["image.tar"]) ∈ (runBuild successOutcomes).2 ∧
      FsEffect.remove (getAbsolutePath ["image.ext2"]) ∉ (runBuild successOutcomes).2) ∧
    ∀ o : RunOutcomes,
      FsEffect.remove (getAbsolutePath ["image.ext2"]) ∉ (runBuild o).2 := by
  refine ⟨by decide, ?_⟩
  intro o
  have h1 : FsEffect.remove (getAbsolutePath ["image.ext2"]) ≠
      FsEffect.remove (getAbsolutePath ["image.gnutar"]) := by decide
  have h2 : FsEffect.remove (getAbsolutePath ["image.ext2"]) ≠
      FsEffect.remove (getAbsolutePath ["image.tar"]) := by decide
  have h3 := remove_not_mem_sdkRunWrites o.rootfs (getAbsolutePath ["image.ext2"])
    (getAbsolutePath ["image.gnutar"])
  have h4 := remove_not_mem_sdkRunWrites o.ext2 (getAbsolutePath ["image.ext2"])
    (getAbsolutePath ["image.ext2"])
  have h5 := remove_not_mem_sdkRunWrites o.snapshot (getAbsolutePath ["image.ext2"])
    (getAbsolutePath ["image"])
  unfold runBuild
  repeat' split
  all_goals simp_all [List.mem_append]
